import Mathlib

/-!
Verification of the WS2812 astronomical clock firmware (`src/main.cpp`).

The firmware drives a 332-LED strip as a 24-hour clock.  Each second the
loop maps the current time and the cached sunrise/sunset/solar-noon data
onto pixel indices, repaints the whole buffer (clear, daylight span, hour
ticks, solstice markers, current-time marker) and flushes it.  Once per
24 hours (or while the cached data is the zero sentinel) it re-fetches the
sun data over HTTP.

The definitions below are a shallow embedding of that code.  The pixel
buffer is modelled as a total function `Nat → CRGB` so that every write the
C++ loop performs is representable, including writes past the end of the
real 332-entry array.  All the C++ `int` quantities involved are
non-negative in the situations the claims discuss, so they are modelled as
`Nat`; the 32-bit `unsigned long` arithmetic of `millis()` is modelled
explicitly modulo `2^32`.
-/

namespace AstroClock

/-- `#define NUM_LEDS 332` (main.cpp line 60). -/
def NUM_LEDS : Nat := 332

/-- `static const int SECONDS_PER_LED = (24*60*60) / NUM_LEDS;`
(main.cpp line 75, C++ integer division). -/
def SECONDS_PER_LED : Nat := (24 * 60 * 60) / NUM_LEDS

/-- One color triple of the FastLED `CRGB` struct. -/
structure CRGB where
  r : Nat
  g : Nat
  b : Nat
deriving DecidableEq, Repr

/-- The cleared color `(0,0,0)`. -/
def off : CRGB := ⟨0, 0, 0⟩

/-- `CRGB(0, 0, 8)`, dark blue for the daylight period (line 211). -/
def dimBlue : CRGB := ⟨0, 0, 8⟩

/-- `CRGB(32, 0, 0)`, dark red for the hour markers (line 221). -/
def dimRed : CRGB := ⟨32, 0, 0⟩

/-- `CRGB(0, 255, 0)`, bright green for the solstice markers (line 228). -/
def green : CRGB := ⟨0, 255, 0⟩

/-- `CRGB(255, 255, 0)`, bright yellow for the current time (line 249). -/
def yellow : CRGB := ⟨255, 255, 0⟩

/-- `struct SunData` (main.cpp lines 106-113). -/
structure SunData where
  sunriseMinutes : Nat
  sunsetMinutes : Nat
  solarNoonMinutes : Nat
  daySeconds : Nat
  lastUpdate : Nat
deriving DecidableEq, Repr

/-- `convertTimeToMinutes` (line 84): parses `"HH:MM"` and returns
`hours * 60 + minutes`; here the two parsed fields are taken directly. -/
def convertTimeToMinutes (hours minutes : Nat) : Nat :=
  hours * 60 + minutes

/-- `convertTimeToMinutes("08:47")` (line 92). -/
def winterSolsticeSunrise : Nat := convertTimeToMinutes 8 47

/-- `convertTimeToMinutes("16:02")` (line 93). -/
def winterSolsticeSunset : Nat := convertTimeToMinutes 16 2

/-- `convertTimeToMinutes("03:47")` (line 94). -/
def summerSolsticeSunrise : Nat := convertTimeToMinutes 3 47

/-- `convertTimeToMinutes("20:34")` (line 95). -/
def summerSolsticeSunset : Nat := convertTimeToMinutes 20 34

/-- The minute-of-day to pixel mapping `(m * 60) / SECONDS_PER_LED`, used at
lines 98-101 and 199-201 of main.cpp. -/
def pixelOf (m : Nat) : Nat := (m * 60) / SECONDS_PER_LED

/-- `winterSolsticeSunriseLED` (line 98). -/
def winterSolsticeSunriseLED : Nat := pixelOf winterSolsticeSunrise

/-- `winterSolsticeSunsetLED` (line 99). -/
def winterSolsticeSunsetLED : Nat := pixelOf winterSolsticeSunset

/-- `summerSolsticeSunriseLED` (line 100). -/
def summerSolsticeSunriseLED : Nat := pixelOf summerSolsticeSunrise

/-- `summerSolsticeSunsetLED` (line 101). -/
def summerSolsticeSunsetLED : Nat := pixelOf summerSolsticeSunset

/-- `int sunriseLED = (sun.sunriseMinutes * 60) / SECONDS_PER_LED;` (line 199). -/
def sunriseLEDof (sun : SunData) : Nat := pixelOf sun.sunriseMinutes

/-- `int sunsetLED = (sun.sunsetMinutes * 60) / SECONDS_PER_LED;` (line 200). -/
def sunsetLEDof (sun : SunData) : Nat := pixelOf sun.sunsetMinutes

/-- `int solarNoonLED = (sun.solarNoonMinutes * 60) / SECONDS_PER_LED;` (line 201). -/
def solarNoonLEDof (sun : SunData) : Nat := pixelOf sun.solarNoonMinutes

/-- `int ledPosition = currentSecond / SECONDS_PER_LED;` (line 198). -/
def ledPositionOf (currentSecond : Nat) : Nat := currentSecond / SECONDS_PER_LED

/-! ## Pixel buffer model

The buffer is a total function so out-of-range writes of the C++ loop are
representable.  `FastLED.clear()` sets every entry to `(0,0,0)`. -/

/-- Write color `c` at index `i` (`leds[i] = c;`). -/
def setPix (buf : Nat → CRGB) (i : Nat) (c : CRGB) : Nat → CRGB :=
  fun j => if j = i then c else buf j

/-- `FastLED.clear();` (line 204). -/
def clearBuf : Nat → CRGB := fun _ => off

/-- The list of indices the daylight loop at line 207 iterates over:
`for (int i = sunriseLED; i <= sunsetLED; i++)`.  Every such `i` is both
read (`leds[i].r`) and potentially written, with no bounds check. -/
def daylightAccessed (sunriseLED sunsetLED : Nat) : List Nat :=
  List.range' sunriseLED (sunsetLED + 1 - sunriseLED)

/-- The body of the daylight loop (lines 209-212):
`if (i != solarNoonLED && leds[i].r == 0) leds[i] = CRGB(0, 0, 8);`. -/
def dayStep (solarNoonLED : Nat) (b : Nat → CRGB) (i : Nat) : Nat → CRGB :=
  if i ≠ solarNoonLED ∧ (b i).r = 0 then setPix b i dimBlue else b

/-- The daylight-painting loop (lines 207-213). -/
def daylightLoop (sunriseLED sunsetLED solarNoonLED : Nat)
    (buf : Nat → CRGB) : Nat → CRGB :=
  (daylightAccessed sunriseLED sunsetLED).foldl (dayStep solarNoonLED) buf

/-- `int hourLED = (hour * 3600) / SECONDS_PER_LED;` (line 218). -/
def hourLED (hour : Nat) : Nat := (hour * 3600) / SECONDS_PER_LED

/-- The body of the hour-marker loop (lines 218-222):
`if (hourLED >= 0 && hourLED < NUM_LEDS && hourLED != solarNoonLED)
  leds[hourLED] = CRGB(32, 0, 0);` (`hourLED >= 0` is automatic on `Nat`). -/
def hourWrite (solarNoonLED : Nat) (b : Nat → CRGB) (hour : Nat) : Nat → CRGB :=
  if hourLED hour < NUM_LEDS ∧ hourLED hour ≠ solarNoonLED then
    setPix b (hourLED hour) dimRed
  else b

/-- The hour-marker loop `for(int hour = 0; hour < 24; hour++)` (lines 216-223). -/
def hourStep (solarNoonLED : Nat) (buf : Nat → CRGB) : Nat → CRGB :=
  (List.range 24).foldl (hourWrite solarNoonLED) buf

/-- One guarded solstice write (lines 226-241): bright green if the
precomputed index is in `[0, NUM_LEDS)` (the `>= 0` half is automatic on `Nat`). -/
def solsticeWrite (i : Nat) (b : Nat → CRGB) : Nat → CRGB :=
  if i < NUM_LEDS then setPix b i green else b

/-- The four solstice-marker writes, in source order (lines 226-241). -/
def solsticeStep (buf : Nat → CRGB) : Nat → CRGB :=
  solsticeWrite summerSolsticeSunsetLED
    (solsticeWrite summerSolsticeSunriseLED
      (solsticeWrite winterSolsticeSunsetLED
        (solsticeWrite winterSolsticeSunriseLED buf)))

/-- The current-time marker (lines 244-250): painted bright yellow only when
in bounds, distinct from the solar-noon pixel, and inside
`[sunriseLED, sunsetLED]` (`ledPosition >= 0` is automatic on `Nat`). -/
def currentStep (ledPosition sunriseLED sunsetLED solarNoonLED : Nat)
    (buf : Nat → CRGB) : Nat → CRGB :=
  if ledPosition < NUM_LEDS ∧ ledPosition ≠ solarNoonLED ∧
      sunriseLED ≤ ledPosition ∧ ledPosition ≤ sunsetLED then
    setPix buf ledPosition yellow
  else buf

/-- One complete render pass of `loop()` (lines 203-250): clear, daylight
span, hour ticks, solstice markers, current-time marker. -/
def renderFrame (sun : SunData) (currentSecond : Nat) : Nat → CRGB :=
  currentStep (ledPositionOf currentSecond) (sunriseLEDof sun)
    (sunsetLEDof sun) (solarNoonLEDof sun)
    (solsticeStep
      (hourStep (solarNoonLEDof sun)
        (daylightLoop (sunriseLEDof sun) (sunsetLEDof sun)
          (solarNoonLEDof sun) clearBuf)))

/-! ## Fetch model

`getSunData()` (lines 118-146) initializes `SunData data = {0};` and only
fills the fields in when both the HTTP GET and the JSON parse succeed; on
any failure it returns the zero struct.  The network outcome is modelled as
an `Option FetchResult` (`none` = transport or parse failure). -/

/-- The hour/minute fields `strptime` extracts from the three timestamps,
plus `results.day_length` (lines 132-140). -/
structure FetchResult where
  sunriseHour : Nat
  sunriseMin : Nat
  sunsetHour : Nat
  sunsetMin : Nat
  noonHour : Nat
  noonMin : Nat
  dayLength : Nat
deriving DecidableEq, Repr

/-- `getSunData()` (lines 118-146): the zero struct on failure, the parsed
fields (each `tm_hour * 60 + tm_min`) and `millis()` timestamp on success. -/
def getSunData (outcome : Option FetchResult) (fetchTime : Nat) : SunData :=
  match outcome with
  | none => ⟨0, 0, 0, 0, 0⟩
  | some r =>
      ⟨r.sunriseHour * 60 + r.sunriseMin,
       r.sunsetHour * 60 + r.sunsetMin,
       r.noonHour * 60 + r.noonMin,
       r.dayLength,
       fetchTime⟩

/-- Modulus of the 32-bit `unsigned long` arithmetic of `millis()`. -/
def U32 : Nat := 2 ^ 32

/-- Unsigned 32-bit subtraction `now - lastUpdate` as C++ computes it for
`unsigned long` operands below `2^32`. -/
def usub (a b : Nat) : Nat := (a + U32 - b) % U32

/-- The fetch trigger at line 186:
`millis() - sun.lastUpdate > 24*60*60*1000 || sun.lastUpdate == 0`. -/
def shouldFetch (now lastUpdate : Nat) : Bool :=
  (decide (usub now lastUpdate > 24 * 60 * 60 * 1000)) || (lastUpdate == 0)

/-- The fetch portion of one `loop()` iteration (lines 183-189): returns
whether a fetch was performed and the resulting cached `SunData`. -/
def loopIteration (sun : SunData) (now : Nat) (outcome : Option FetchResult) :
    Bool × SunData :=
  if shouldFetch now sun.lastUpdate then (true, getSunData outcome now)
  else (false, sun)

/-! ## Pointwise characterizations of the painting loops -/

/-- Pointwise effect of the daylight fold on a buffer whose red channels are
all zero (as after `FastLED.clear()`): every index of the iterated range
other than the solar-noon index becomes dim blue, everything else is kept. -/
theorem dayFold_apply (n : Nat) :
    ∀ (len s : Nat) (buf : Nat → CRGB), (∀ j, (buf j).r = 0) → ∀ i,
      ((List.range' s len).foldl (dayStep n) buf) i =
        if s ≤ i ∧ i < s + len ∧ i ≠ n then dimBlue else buf i := by
  intro len
  induction len with
  | zero =>
      intro s buf h i
      rw [List.range'_zero, List.foldl_nil, if_neg (by omega)]
  | succ len ih =>
      intro s buf h i
      rw [List.range'_succ, List.foldl_cons]
      by_cases hs : s = n
      · have hstep : dayStep n buf s = buf := by
          unfold dayStep
          rw [if_neg (by simp [hs])]
        rw [hstep, ih (s + 1) buf h i]
        by_cases h1 : s ≤ i ∧ i < s + (len + 1) ∧ i ≠ n
        · rw [if_pos (by omega), if_pos h1]
        · rw [if_neg (by omega), if_neg h1]
      · have hstep : dayStep n buf s = setPix buf s dimBlue := by
          unfold dayStep
          rw [if_pos ⟨hs, h s⟩]
        rw [hstep]
        have h' : ∀ j, ((setPix buf s dimBlue) j).r = 0 := by
          intro j
          by_cases hj : j = s
          · simp [setPix, hj, dimBlue]
          · simp [setPix, hj, h j]
        rw [ih (s + 1) _ h' i]
        by_cases hi : i = s
        · subst hi
          rw [if_neg (by omega), if_pos (by omega)]
          simp [setPix]
        · have hsp : (setPix buf s dimBlue) i = buf i := by simp [setPix, hi]
          rw [hsp]
          by_cases h1 : s ≤ i ∧ i < s + (len + 1) ∧ i ≠ n
          · rw [if_pos (by omega), if_pos h1]
          · rw [if_neg (by omega), if_neg h1]

/-- Pointwise effect of the hour-marker fold: an index is dark red after it
exactly when some iterated hour maps to it and passes the guard, and is
untouched otherwise. -/
theorem hourFold_apply (noon : Nat) :
    ∀ (l : List Nat) (buf : Nat → CRGB) (i : Nat),
      (l.foldl (hourWrite noon) buf) i =
        if ∃ h ∈ l, hourLED h = i ∧ hourLED h < NUM_LEDS ∧ hourLED h ≠ noon
        then dimRed else buf i := by
  intro l
  induction l with
  | nil => intro buf i; simp
  | cons a l ih =>
      intro buf i
      rw [List.foldl_cons, ih]
      by_cases ht : ∃ h ∈ l, hourLED h = i ∧ hourLED h < NUM_LEDS ∧ hourLED h ≠ noon
      · rw [if_pos ht, if_pos ?side]
        case side =>
          obtain ⟨h, hmem, hh⟩ := ht
          exact ⟨h, List.mem_cons_of_mem a hmem, hh⟩
      · rw [if_neg ht]
        by_cases ha : hourLED a = i ∧ hourLED a < NUM_LEDS ∧ hourLED a ≠ noon
        · rw [if_pos ⟨a, List.mem_cons_self a l, ha⟩]
          unfold hourWrite
          rw [if_pos ⟨ha.2.1, ha.2.2⟩]
          simp [setPix, ha.1]
        · have hne : ¬ ∃ h ∈ a :: l,
              hourLED h = i ∧ hourLED h < NUM_LEDS ∧ hourLED h ≠ noon := by
            rintro ⟨h, hmem, hh⟩
            rcases List.mem_cons.mp hmem with rfl | hmem'
            · exact ha hh
            · exact ht ⟨h, hmem', hh⟩
          rw [if_neg hne]
          unfold hourWrite
          split
          · rename_i g
            have hii : i ≠ hourLED a := fun he => ha ⟨he.symm, g.1, g.2⟩
            simp [setPix, hii]
          · rfl

/-- Pointwise effect of the four solstice writes: the four precomputed
indices (all in bounds) become bright green, everything else is kept. -/
theorem solsticeStep_apply (buf : Nat → CRGB) (i : Nat) :
    solsticeStep buf i =
      if i = winterSolsticeSunriseLED ∨ i = winterSolsticeSunsetLED ∨
         i = summerSolsticeSunriseLED ∨ i = summerSolsticeSunsetLED
      then green else buf i := by
  have g1 : winterSolsticeSunriseLED < NUM_LEDS := by decide
  have g2 : winterSolsticeSunsetLED < NUM_LEDS := by decide
  have g3 : summerSolsticeSunriseLED < NUM_LEDS := by decide
  have g4 : summerSolsticeSunsetLED < NUM_LEDS := by decide
  simp only [solsticeStep, solsticeWrite, if_pos g1, if_pos g2, if_pos g3,
    if_pos g4, setPix]
  by_cases h1 : i = winterSolsticeSunriseLED <;>
    by_cases h2 : i = winterSolsticeSunsetLED <;>
      by_cases h3 : i = summerSolsticeSunriseLED <;>
        by_cases h4 : i = summerSolsticeSunsetLED <;>
          simp [h1, h2, h3, h4]

/-! ## Claims -/

/-- C2 (counterexample): the claimed range fails at the maximal minute of
day: `pixelOf 1439 = (1439*60)/260 = 332 = NUM_LEDS`, which is outside
`[0, NUM_LEDS - 1]`. -/
theorem pixel_range_claim_counterexample :
    pixelOf 1439 = NUM_LEDS ∧ ¬ pixelOf 1439 ≤ NUM_LEDS - 1 := by decide

/-- C2 (amended): `pixelOf` is monotone non-decreasing on all minute values,
and for every minute of day `m ≤ 1438` the result lies in `[0, NUM_LEDS-1]`;
at the final minute `m = 1439` the result is `NUM_LEDS` itself, one past the
last valid index. -/
theorem pixelOf_monotone_and_range :
    (∀ m m', m ≤ m' → pixelOf m ≤ pixelOf m') ∧
    (∀ m, m ≤ 1438 → pixelOf m ≤ NUM_LEDS - 1) ∧
    pixelOf 1439 = NUM_LEDS := by
  refine ⟨?_, ?_, by decide⟩
  · intro m m' hm
    exact Nat.div_le_div_right (Nat.mul_le_mul_right 60 hm)
  · intro m hm
    calc pixelOf m ≤ pixelOf 1438 :=
          Nat.div_le_div_right (Nat.mul_le_mul_right 60 hm)
      _ ≤ NUM_LEDS - 1 := by decide

/-- C2 (witness): the amended theorem instantiated at concrete minutes. -/
theorem pixelOf_monotone_and_range_witness :
    pixelOf 100 ≤ pixelOf 200 ∧ pixelOf 1438 ≤ NUM_LEDS - 1 :=
  ⟨pixelOf_monotone_and_range.1 100 200 (by decide),
   pixelOf_monotone_and_range.2.1 1438 (by decide)⟩

/-- C3: there is a `SunData` whose minute fields all lie in `[0, 1440)` for
which the daylight-span loop iterates over a pixel index outside
`[0, NUM_LEDS)` — here `sunsetMinutes = 1439` gives `sunsetLED = 332`, and
the loop (which has no bounds check on its range) accesses index 332. -/
theorem daylight_loop_out_of_bounds :
    ∃ sun : SunData, sun.sunriseMinutes < 1440 ∧ sun.sunsetMinutes < 1440 ∧
      sun.solarNoonMinutes < 1440 ∧
      ∃ i ∈ daylightAccessed (sunriseLEDof sun) (sunsetLEDof sun),
        NUM_LEDS ≤ i := by
  refine ⟨⟨480, 1439, 740, 0, 0⟩, by decide, by decide, by decide,
    332, ?_, by decide⟩
  decide

/-- C6: one loop iteration performs a fetch exactly when the unsigned
32-bit difference `now - lastUpdate` exceeds 86,400,000 ms or `lastUpdate`
is the zero sentinel (first run); under any other condition no fetch
occurs. -/
theorem fetch_trigger_iff (sun : SunData) (now : Nat)
    (outcome : Option FetchResult) :
    (loopIteration sun now outcome).1 = true ↔
      (usub now sun.lastUpdate > 86400000 ∨ sun.lastUpdate = 0) := by
  have hb : (loopIteration sun now outcome).1 = shouldFetch now sun.lastUpdate := by
    unfold loopIteration
    split
    · rename_i h; exact h.symm
    · rename_i h; exact ((Bool.not_eq_true _).mp h).symm
  rw [hb]
  unfold shouldFetch
  rw [Bool.or_eq_true, decide_eq_true_iff, beq_iff_eq]

/-- C10: during the final 80 seconds of the day (`currentSecond` in
`[86320, 86399]`, since `NUM_LEDS * SECONDS_PER_LED = 86320`), the
current-time pixel index equals `NUM_LEDS = 332`, the bounds check fails,
and the current-time marker paints nothing. -/
theorem end_of_day_gap (s sr ss noon : Nat) (buf : Nat → CRGB)
    (h1 : 86320 ≤ s) (h2 : s ≤ 86399) :
    ledPositionOf s = NUM_LEDS ∧
    NUM_LEDS * SECONDS_PER_LED = 86320 ∧
    currentStep (ledPositionOf s) sr ss noon buf = buf := by
  have h260 : SECONDS_PER_LED = 260 := by decide
  have hdiv : ledPositionOf s = 332 := by
    unfold ledPositionOf
    rw [h260]
    omega
  refine ⟨by rw [hdiv]; rfl, by decide, ?_⟩
  unfold currentStep
  rw [if_neg]
  rintro ⟨hlt, -⟩
  rw [hdiv] at hlt
  exact absurd hlt (by decide)

/-- C10 (witness): the theorem at second 86350 of the day. -/
theorem end_of_day_gap_witness :
    ledPositionOf 86350 = NUM_LEDS ∧
    NUM_LEDS * SECONDS_PER_LED = 86320 ∧
    currentStep (ledPositionOf 86350) 0 331 170 clearBuf = clearBuf :=
  end_of_day_gap 86350 0 331 170 clearBuf (by decide) (by decide)

/-- C1 (counterexample): a prior `SunData` from a successful fetch
(`lastUpdate = 1000`), a tick more than 24 hours later and a failing fetch:
the cached value after the iteration is the zero struct, not the prior
value, so the claim that no field changes is false. -/
theorem stale_data_claim_counterexample :
    (loopIteration ⟨480, 960, 740, 3600, 1000⟩ 86401001 none).2 ≠
      ⟨480, 960, 740, 3600, 1000⟩ := by decide

/-- C1 (amended): if a fetch is performed and fails (any transport or
JSON-parse failure), the cached `SunData` after the cycle is the
zero-initialized struct — every field including `lastUpdate` becomes 0 —
rather than the prior value being retained. -/
theorem failed_fetch_zeroes_sun_data (sun : SunData) (now : Nat)
    (htrig : shouldFetch now sun.lastUpdate = true) :
    (loopIteration sun now none).2 = ⟨0, 0, 0, 0, 0⟩ := by
  unfold loopIteration
  rw [if_pos htrig]
  rfl

/-- C1 (witness): the amended theorem at the counterexample's input. -/
theorem failed_fetch_zeroes_sun_data_witness :
    (loopIteration ⟨480, 960, 740, 3600, 1000⟩ 86401001 none).2 =
      ⟨0, 0, 0, 0, 0⟩ :=
  failed_fetch_zeroes_sun_data ⟨480, 960, 740, 3600, 1000⟩ 86401001 (by decide)

/-- C9: after a failed fetch the stored `SunData` has `lastUpdate = 0`, so
the fetch trigger holds at every later millisecond count: the provider is
re-invoked on every subsequent one-second tick until a fetch succeeds. -/
theorem failed_fetch_retries_every_tick (sun : SunData) (now now' : Nat)
    (htrig : shouldFetch now sun.lastUpdate = true) :
    (loopIteration sun now none).2.lastUpdate = 0 ∧
    shouldFetch now' (loopIteration sun now none).2.lastUpdate = true := by
  have h : (loopIteration sun now none).2 = ⟨0, 0, 0, 0, 0⟩ := by
    unfold loopIteration
    rw [if_pos htrig]
    rfl
  rw [h]
  exact ⟨rfl, by simp [shouldFetch]⟩

/-- C9 (witness): the theorem at a concrete failing fetch and a concrete
later tick. -/
theorem failed_fetch_retries_every_tick_witness :
    (loopIteration ⟨500, 970, 735, 3600, 2000⟩ 86402001 none).2.lastUpdate = 0 ∧
    shouldFetch 86403001
      (loopIteration ⟨500, 970, 735, 3600, 2000⟩ 86402001 none).2.lastUpdate = true :=
  failed_fetch_retries_every_tick ⟨500, 970, 735, 3600, 2000⟩ 86402001 86403001
    (by decide)

/-- C5: for sun data whose sunrise/sunset pixels are in order and in
bounds, the daylight step applied to the freshly cleared buffer paints dim
blue exactly the inclusive range `[sunriseLED, sunsetLED]` minus the
solar-noon pixel, and leaves every other pixel off. -/
theorem daylight_span_painting (sun : SunData)
    (hle : sunriseLEDof sun ≤ sunsetLEDof sun)
    (hub : sunsetLEDof sun < NUM_LEDS) :
    ∀ i, daylightLoop (sunriseLEDof sun) (sunsetLEDof sun)
        (solarNoonLEDof sun) clearBuf i =
      if sunriseLEDof sun ≤ i ∧ i ≤ sunsetLEDof sun ∧ i ≠ solarNoonLEDof sun
      then dimBlue else off := by
  intro i
  unfold daylightLoop daylightAccessed
  rw [dayFold_apply (solarNoonLEDof sun) _ _ clearBuf (fun j => rfl) i]
  by_cases hc : sunriseLEDof sun ≤ i ∧ i ≤ sunsetLEDof sun ∧
      i ≠ solarNoonLEDof sun
  · rw [if_pos (by omega), if_pos hc]
  · rw [if_neg (by omega), if_neg hc]
    rfl

/-- C5 (witness): with sunrise 08:00 (pixel 110), sunset 16:00 (pixel 221)
and solar noon 12:20 (pixel 170), pixel 150 is dim blue, the noon pixel 170
is off, and pixel 300 outside the span is off. -/
theorem daylight_span_painting_witness :
    daylightLoop (sunriseLEDof ⟨480, 960, 740, 0, 0⟩)
        (sunsetLEDof ⟨480, 960, 740, 0, 0⟩)
        (solarNoonLEDof ⟨480, 960, 740, 0, 0⟩) clearBuf 150 = dimBlue ∧
    daylightLoop (sunriseLEDof ⟨480, 960, 740, 0, 0⟩)
        (sunsetLEDof ⟨480, 960, 740, 0, 0⟩)
        (solarNoonLEDof ⟨480, 960, 740, 0, 0⟩) clearBuf 300 = off := by
  have h := daylight_span_painting ⟨480, 960, 740, 0, 0⟩ (by decide) (by decide)
  constructor
  · rw [h 150]; decide
  · rw [h 300]; decide

/-- C8: the hour-tick step paints the pixel `(h*3600)/SECONDS_PER_LED` dim
red for each hour `h < 24` whose pixel is in bounds and distinct from the
solar-noon pixel, and leaves every index untouched that no such hour maps
to (in particular the solar-noon pixel and out-of-range indices are
skipped). -/
theorem hour_tick_painting (solarNoonLED : Nat) (buf : Nat → CRGB) :
    (∀ h, h < 24 → hourLED h < NUM_LEDS → hourLED h ≠ solarNoonLED →
      hourStep solarNoonLED buf (hourLED h) = dimRed) ∧
    (∀ i, (∀ h, h < 24 →
        ¬(hourLED h = i ∧ hourLED h < NUM_LEDS ∧ hourLED h ≠ solarNoonLED)) →
      hourStep solarNoonLED buf i = buf i) := by
  constructor
  · intro h hh hlt hne
    unfold hourStep
    rw [hourFold_apply, if_pos ⟨h, List.mem_range.mpr hh, rfl, hlt, hne⟩]
  · intro i hi
    unfold hourStep
    rw [hourFold_apply, if_neg]
    rintro ⟨h, hmem, hcond⟩
    exact hi h (List.mem_range.mp hmem) hcond

/-- C8 (witness): with solar noon at pixel 170, hour 5's pixel 69 is dim
red after the step, and pixel 200 (which no hour maps to) is untouched. -/
theorem hour_tick_painting_witness :
    hourStep 170 clearBuf (hourLED 5) = dimRed ∧
    hourStep 170 clearBuf 200 = clearBuf 200 :=
  ⟨(hour_tick_painting 170 clearBuf).1 5 (by decide) (by decide) (by decide),
   (hour_tick_painting 170 clearBuf).2 200 (by decide)⟩

/-- C4 (counterexample): with solar noon at 08:45 (`solarNoonMinutes = 525`,
pixel 121) the solar-noon pixel coincides with the winter-solstice-sunrise
pixel, and the solstice write (which, unlike the other painting sites, does
not skip the solar-noon pixel) leaves it bright green, not off. -/
theorem solar_noon_claim_counterexample :
    (480 < 1440 ∧ 960 < 1440 ∧ 525 < 1440) ∧
    renderFrame ⟨480, 960, 525, 0, 0⟩ 0
      (solarNoonLEDof ⟨480, 960, 525, 0, 0⟩) ≠ off := by decide

/-- C4 (amended): for every `SunData` with minute fields in `[0, 1440)` and
every current time, after a complete render pass the solar-noon pixel is
off unless it coincides with one of the four solstice pixels, in which
case it is bright green (the solstice writes do not skip the solar-noon
pixel; the daylight, hour-tick and current-time writes do). -/
theorem solar_noon_pixel_state (sun : SunData) (cs : Nat)
    (h1 : sun.sunriseMinutes < 1440) (h2 : sun.sunsetMinutes < 1440)
    (h3 : sun.solarNoonMinutes < 1440) :
    renderFrame sun cs (solarNoonLEDof sun) =
      if solarNoonLEDof sun = winterSolsticeSunriseLED ∨
         solarNoonLEDof sun = winterSolsticeSunsetLED ∨
         solarNoonLEDof sun = summerSolsticeSunriseLED ∨
         solarNoonLEDof sun = summerSolsticeSunsetLED
      then green else off := by
  have hcur : ∀ buf : Nat → CRGB,
      currentStep (ledPositionOf cs) (sunriseLEDof sun) (sunsetLEDof sun)
        (solarNoonLEDof sun) buf (solarNoonLEDof sun) =
        buf (solarNoonLEDof sun) := by
    intro buf
    unfold currentStep
    split
    · rename_i hcond
      simp [setPix, Ne.symm hcond.2.1]
    · rfl
  have hhour : ∀ buf : Nat → CRGB,
      hourStep (solarNoonLEDof sun) buf (solarNoonLEDof sun) =
        buf (solarNoonLEDof sun) := by
    intro buf
    unfold hourStep
    rw [hourFold_apply, if_neg]
    rintro ⟨h, -, hh1, -, hh3⟩
    exact hh3 hh1
  have hday : daylightLoop (sunriseLEDof sun) (sunsetLEDof sun)
      (solarNoonLEDof sun) clearBuf (solarNoonLEDof sun) = off := by
    unfold daylightLoop daylightAccessed
    rw [dayFold_apply (solarNoonLEDof sun) _ _ clearBuf (fun j => rfl),
      if_neg (by omega)]
    rfl
  unfold renderFrame
  rw [hcur, solsticeStep_apply, hhour, hday]

/-- C4 (witness): the amended theorem at the counterexample's sun data
(noon pixel = winter-solstice-sunrise pixel 121, rendered green) and at sun
data whose noon pixel 170 is no solstice pixel (rendered off). -/
theorem solar_noon_pixel_state_witness :
    renderFrame ⟨480, 960, 525, 0, 0⟩ 0
      (solarNoonLEDof ⟨480, 960, 525, 0, 0⟩) = green ∧
    renderFrame ⟨480, 960, 740, 0, 0⟩ 43200
      (solarNoonLEDof ⟨480, 960, 740, 0, 0⟩) = off := by
  constructor
  · rw [solar_noon_pixel_state ⟨480, 960, 525, 0, 0⟩ 0
      (by decide) (by decide) (by decide)]
    decide
  · rw [solar_noon_pixel_state ⟨480, 960, 740, 0, 0⟩ 43200
      (by decide) (by decide) (by decide)]
    decide

/-- C7: each of the four solstice pixels (all in `[0, NUM_LEDS)`) is bright
green after a complete render pass — regardless of coincident hour-tick or
daylight writes, which happen earlier — except when the current-time marker
is painted at that same index in the same pass, in which case the pixel is
bright yellow (the current-time write comes after the solstice writes). -/
theorem solstice_pixel_render (sun : SunData) (cs : Nat) (p : Nat)
    (hp : p = winterSolsticeSunriseLED ∨ p = winterSolsticeSunsetLED ∨
          p = summerSolsticeSunriseLED ∨ p = summerSolsticeSunsetLED) :
    renderFrame sun cs p =
      if ledPositionOf cs < NUM_LEDS ∧ ledPositionOf cs ≠ solarNoonLEDof sun ∧
         sunriseLEDof sun ≤ ledPositionOf cs ∧
         ledPositionOf cs ≤ sunsetLEDof sun ∧ ledPositionOf cs = p
      then yellow else green := by
  unfold renderFrame
  have hC : solsticeStep (hourStep (solarNoonLEDof sun)
      (daylightLoop (sunriseLEDof sun) (sunsetLEDof sun) (solarNoonLEDof sun)
        clearBuf)) p = green := by
    rw [solsticeStep_apply, if_pos hp]
  unfold currentStep
  by_cases hcond : ledPositionOf cs < NUM_LEDS ∧
      ledPositionOf cs ≠ solarNoonLEDof sun ∧
      sunriseLEDof sun ≤ ledPositionOf cs ∧ ledPositionOf cs ≤ sunsetLEDof sun
  · rw [if_pos hcond]
    by_cases hlp : ledPositionOf cs = p
    · rw [if_pos ⟨hcond.1, hcond.2.1, hcond.2.2.1, hcond.2.2.2, hlp⟩]
      simp [setPix, hlp]
    · rw [if_neg (by tauto)]
      have hne : p ≠ ledPositionOf cs := fun h => hlp h.symm
      simp only [setPix, if_neg hne]
      exact hC
  · rw [if_neg hcond, if_neg (by tauto)]
    exact hC

/-- C7 (witness): with sunrise 08:00, sunset 16:00, noon 12:20, the
winter-solstice-sunrise pixel 121 is green at midnight (current pixel 0 is
elsewhere) and yellow when the current time lands exactly on it
(second 121*260 = 31460 of the day). -/
theorem solstice_pixel_render_witness :
    renderFrame ⟨480, 960, 740, 0, 0⟩ 0 winterSolsticeSunriseLED = green ∧
    renderFrame ⟨480, 960, 740, 0, 0⟩ 31460 winterSolsticeSunriseLED = yellow := by
  constructor
  · rw [solstice_pixel_render ⟨480, 960, 740, 0, 0⟩ 0 winterSolsticeSunriseLED
      (Or.inl rfl)]
    decide
  · rw [solstice_pixel_render ⟨480, 960, 740, 0, 0⟩ 31460 winterSolsticeSunriseLED
      (Or.inl rfl)]
    decide

end AstroClock
